import Mathlib

/-!
Shallow embedding of the matcha-agent provider agent (src/agent.py).

The development models the task acquisition and execution lifecycle of
`poll_for_task` (agent.py lines 199-290) as a trace semantics: every call
into the outside world (orchestrator HTTP, docker runtime, filesystem) is
recorded as an `Event`, and the nondeterministic outcomes of the container
runtime and of the result upload are injected through an `Env` record.
Local filesystem operations (`tempfile.mkdtemp`, `shutil.make_archive`,
`os.remove`, `shutil.rmtree`) are modelled as succeeding; the container
launch, the log stream, `container.wait`, the `requests.put` upload and
`container.remove` may raise, exactly as in the Python `try`/`except`
structure.  The startup credential gate of the `__main__` block
(agent.py lines 305-309) is modelled separately as `startupGate`.
-/

namespace MatchaAgent

/-- Task statuses reported to the orchestrator: the string literals
"RUNNING", "COMPLETED", "FAILED" passed to `update_task_status` in
agent.py (lines 233, 264, 268, 274). -/
inductive Status where
  | RUNNING
  | COMPLETED
  | FAILED
  deriving Repr, DecidableEq

/-- A task record as returned by `POST /provider/get_task` and read in
`poll_for_task` (agent.py lines 206-211, 222-223): `task_id`,
`input_path`, `script_path` (optional, defaulted to "main.py" at the
launch site) and the optional `upload_url` destination reference. -/
structure TaskSpec where
  taskId : String
  inputPath : Option String
  scriptPath : Option String
  uploadUrl : Option String
  deriving Repr, DecidableEq

/-- Outcome of `client.containers.run(...)` (agent.py line 218): either the
container handle is returned, or the call raises with message `msg`. -/
inductive LaunchOutcome where
  | ok
  | exn (msg : String)
  deriving Repr, DecidableEq

/-- Outcome of iterating `container.logs(stream=True, follow=True)`
(agent.py lines 238-241): either the whole ordered list of decoded chunks
is consumed, or the stream raises with message `msg` after the chunks
`seen` were already accumulated into `full_logs`. -/
inductive StreamOutcome where
  | ok (lines : List String)
  | exn (seen : List String) (msg : String)
  deriving Repr, DecidableEq

/-- Outcome of `container.wait(timeout=300)` (agent.py line 244): the exit
code dictionary, a timeout exception, or any other exception. -/
inductive WaitOutcome where
  | exited (code : Int)
  | timeout (msg : String)
  | exn (msg : String)
  deriving Repr, DecidableEq

/-- Outcome of the `requests.put(upload_url, ...)` transfer
(agent.py lines 254-258): an HTTP response with some status code, or a
raised exception (connection error etc.). -/
inductive UploadOutcome where
  | resp (statusCode : Nat)
  | exn (msg : String)
  deriving Repr, DecidableEq

/-- Outcome of `container.remove()` on the normal path (agent.py
line 270): success, or a raised exception. -/
inductive RemoveOutcome where
  | ok
  | exn (msg : String)
  deriving Repr, DecidableEq

/-- The nondeterminism of one execution of the task body: what the docker
runtime and the upload endpoint do, and which files the container left in
the workspace (`os.listdir(result_dir)`, agent.py line 250). -/
structure Env where
  launch : LaunchOutcome
  stream : StreamOutcome
  wait : WaitOutcome
  workspaceFiles : List String
  upload : UploadOutcome
  containerRemove : RemoveOutcome
  deriving Repr, DecidableEq

/-- Observable effects of one `poll_for_task` invocation, in order. -/
inductive Event where
  | mkdtemp
  | containerRun (projectUrl : Option String) (scriptPath : String)
  | statusUpdate (taskId : String) (status : Status) (logs : Option String)
      (resultUrl : Option String)
  | waitCall (timeoutSeconds : Nat)
  | makeArchive (path : String)
  | uploadPut (url : String)
  | removeFile (path : String)
  | containerRemove
  | stopAttempt
  | rmtree
  deriving Repr, DecidableEq

/-- The timeout argument of `container.wait(timeout=300)`
(agent.py line 244). -/
def WAIT_TIMEOUT : Nat := 300

/-- Path returned by `shutil.make_archive(f"results_\x7btask_id\x7d", 'zip',
result_dir)` (agent.py line 251): a zip file in the current working
directory, outside the workspace. -/
def zipPath (taskId : String) : String := "results_" ++ taskId ++ ".zip"

/-- The `full_logs` accumulator (agent.py lines 236-241): the
concatenation of the decoded chunks of the log stream. -/
def joinLogs (lines : List String) : String := String.join lines

/-- One call of `update_task_status` (agent.py lines 186-197): a single
best-effort POST to /provider/task_update carrying `task_id`, `status`,
`result_url` and `details.stdout`; network failures are swallowed inside
the function, so the call always appears as exactly one event.  Call
sites in `poll_for_task` pass `logs` positionally and never pass
`result_url`, which therefore stays `None`. -/
def update_task_status (taskId : String) (status : Status)
    (logs : Option String) (resultUrl : Option String) : Event :=
  Event.statusUpdate taskId status logs resultUrl

/-- Tail of the normal path after the terminal status update: the
`container.remove()` call of agent.py line 270.  If it raises, control
moves to the `except` block (lines 272-281), which sends a second
status update `FAILED` with the exception text, attempts a forced
stop of the container, and then the `finally` block removes the
workspace. -/
def removeTail (t : TaskSpec) (env : Env) : List Event :=
  match env.containerRemove with
  | RemoveOutcome.ok => [Event.containerRemove, Event.rmtree]
  | RemoveOutcome.exn msg =>
      [update_task_status t.taskId Status.FAILED (some msg) none,
       Event.stopAttempt, Event.rmtree]

/-- The task body of `poll_for_task` (agent.py lines 214-286), from
`result_dir = tempfile.mkdtemp()` through the `finally` cleanup, as the
ordered list of its observable events.

Path correspondence with the source:
* launch raises (line 218) -> `except` at 272: `FAILED` with the
  exception text; the forced-stop block raises `NameError` on the unbound
  `container` variable and is swallowed, so no stop attempt is recorded;
  `finally` removes the workspace.
* stream raises (lines 238-241) -> `except`: `FAILED` with the exception
  text (the accumulated chunks are discarded), forced-stop attempt,
  workspace removed.
* `container.wait` times out or raises (line 244) -> same `except` path.
* exit code 0 (line 246): if `os.listdir(result_dir)` is non-empty AND
  `upload_url` is set (line 250), one archive is made and one PUT is
  attempted; if the PUT returns any HTTP response the archive is removed
  (line 262) and `COMPLETED` is reported with `full_logs` (line 264); if
  the PUT raises, the `except` path reports `FAILED` and the archive file
  is never removed.  Without files or without `upload_url`, `COMPLETED`
  is reported directly.  Then `container.remove()` (line 270).
* non-zero exit code (line 267): `FAILED` with `full_logs`, then
  `container.remove()`. -/
def runTask (t : TaskSpec) (env : Env) : List Event :=
  match env.launch with
  | LaunchOutcome.exn msg =>
      [Event.mkdtemp,
       update_task_status t.taskId Status.FAILED (some msg) none,
       Event.rmtree]
  | LaunchOutcome.ok =>
    match env.stream with
    | StreamOutcome.exn _seen msg =>
        [Event.mkdtemp,
         Event.containerRun t.inputPath (t.scriptPath.getD "main.py"),
         update_task_status t.taskId Status.RUNNING none none,
         update_task_status t.taskId Status.FAILED (some msg) none,
         Event.stopAttempt, Event.rmtree]
    | StreamOutcome.ok lines =>
      let fullLogs := joinLogs lines
      let head := [Event.mkdtemp,
                   Event.containerRun t.inputPath (t.scriptPath.getD "main.py"),
                   update_task_status t.taskId Status.RUNNING none none,
                   Event.waitCall WAIT_TIMEOUT]
      match env.wait with
      | WaitOutcome.timeout msg =>
          head ++ [update_task_status t.taskId Status.FAILED (some msg) none,
                   Event.stopAttempt, Event.rmtree]
      | WaitOutcome.exn msg =>
          head ++ [update_task_status t.taskId Status.FAILED (some msg) none,
                   Event.stopAttempt, Event.rmtree]
      | WaitOutcome.exited code =>
        if code = 0 then
          match env.workspaceFiles, t.uploadUrl with
          | _ :: _, some url =>
            match env.upload with
            | UploadOutcome.exn msg =>
                head ++ [Event.makeArchive (zipPath t.taskId),
                         Event.uploadPut url,
                         update_task_status t.taskId Status.FAILED (some msg) none,
                         Event.stopAttempt, Event.rmtree]
            | UploadOutcome.resp _sc =>
                head ++ [Event.makeArchive (zipPath t.taskId),
                         Event.uploadPut url,
                         Event.removeFile (zipPath t.taskId),
                         update_task_status t.taskId Status.COMPLETED (some fullLogs) none]
                     ++ removeTail t env
          | _, _ =>
              head ++ [update_task_status t.taskId Status.COMPLETED (some fullLogs) none]
                   ++ removeTail t env
        else
          head ++ [update_task_status t.taskId Status.FAILED (some fullLogs) none]
               ++ removeTail t env

/-- Result of the poll request itself (agent.py lines 202-208): a non-200
response, a 200 response without a task, or an assigned task. -/
inductive PollOutcome where
  | httpError
  | noTask
  | task (t : TaskSpec)
  deriving Repr, DecidableEq

/-- `poll_for_task` (agent.py lines 199-290): returns `False` with no
effects when no task is assigned, otherwise runs the task body and
returns `True`. -/
def poll_for_task (p : PollOutcome) (env : Env) : Bool × List Event :=
  match p with
  | PollOutcome.httpError => (false, [])
  | PollOutcome.noTask => (false, [])
  | PollOutcome.task t => (true, runTask t env)

/-- An event is a terminal status report: a `task_update` POST whose
status is `COMPLETED` or `FAILED` (never the intermediate `RUNNING`). -/
def isTerminalReport : Event → Bool
  | Event.statusUpdate _ Status.COMPLETED _ _ => true
  | Event.statusUpdate _ Status.FAILED _ _ => true
  | _ => false

/-- Number of terminal status reports in a trace. -/
def terminalCount (es : List Event) : Nat :=
  (es.filter isTerminalReport).length

/-- The first terminal status report of a trace, if any. -/
def firstTerminalReport (es : List Event) : Option Event :=
  es.find? isTerminalReport

/-- The status carried by the first terminal report of a trace. -/
def firstTerminalStatus (es : List Event) : Option Status :=
  match firstTerminalReport es with
  | some (Event.statusUpdate _ s _ _) => some s
  | _ => none

/-- Number of `shutil.make_archive` calls in a trace. -/
def archiveCount (es : List Event) : Nat :=
  (es.filter fun e =>
    match e with
    | Event.makeArchive _ => true
    | _ => false).length

/-- Number of `requests.put` upload attempts in a trace. -/
def uploadCount (es : List Event) : Nat :=
  (es.filter fun e =>
    match e with
    | Event.uploadPut _ => true
    | _ => false).length

/-- Replay of the workspace directory through a trace: created by
`tempfile.mkdtemp`, deleted by `shutil.rmtree`; `True` when the directory
still exists afterwards. -/
def resultDirExistsAfter (es : List Event) : Bool :=
  es.foldl (fun b e =>
    match e with
    | Event.mkdtemp => true
    | Event.rmtree => false
    | _ => b) false

/-- Replay of the local archive file through a trace: created by
`shutil.make_archive`, deleted by `os.remove`; the workspace `rmtree`
does not touch it because the archive lives in the current working
directory.  `True` when the archive still exists afterwards. -/
def archiveExistsAfter (es : List Event) : Bool :=
  es.foldl (fun b e =>
    match e with
    | Event.makeArchive _ => true
    | Event.removeFile _ => false
    | _ => b) false

/-- The upload attempt raised instead of returning an HTTP response. -/
def uploadRaises : UploadOutcome → Bool
  | UploadOutcome.exn _ => true
  | UploadOutcome.resp _ => false

/-- `container.remove()` on the normal path raised. -/
def removeRaises : RemoveOutcome → Bool
  | RemoveOutcome.exn _ => true
  | RemoveOutcome.ok => false

/-- The container launch returned a handle. -/
def launchOk (env : Env) : Bool :=
  match env.launch with
  | LaunchOutcome.ok => true
  | LaunchOutcome.exn _ => false

/-- The log stream was consumed to the end without raising. -/
def streamOk (env : Env) : Bool :=
  match env.stream with
  | StreamOutcome.ok _ => true
  | StreamOutcome.exn _ _ => false

/-- `container.wait` returned an exit code (no timeout, no exception). -/
def waitExited (env : Env) : Bool :=
  match env.wait with
  | WaitOutcome.exited _ => true
  | _ => false

/-- `container.wait` returned exit code 0. -/
def exitedZero (env : Env) : Bool :=
  match env.wait with
  | WaitOutcome.exited c => c == 0
  | _ => false

/-- The archive-and-upload branch is taken: the guard
`os.listdir(result_dir) and upload_url` of agent.py line 250. -/
def uploadTaken (t : TaskSpec) (env : Env) : Bool :=
  !env.workspaceFiles.isEmpty && t.uploadUrl.isSome

/-- The execution reaches the `container.remove()` call of agent.py
line 270: launch, stream and wait all completed, and when the upload
branch was taken the upload returned a response instead of raising. -/
def reachesRemove (t : TaskSpec) (env : Env) : Bool :=
  launchOk env && streamOk env && waitExited env &&
    !(exitedZero env && uploadTaken t env && uploadRaises env.upload)

/-- The event carries no result-archive reference: a status update whose
`result_url` field is `None`, or any non-report event.  In agent.py every
call site of `update_task_status` inside `poll_for_task` leaves the
`result_url` parameter at its default `None`. -/
def noResultRef : Event → Bool
  | Event.statusUpdate _ _ _ r => r.isNone
  | _ => true

/-- Action taken by the `__main__` startup gate. -/
inductive StartupAction where
  | exitWithCode (code : Nat)
  | register
  deriving Repr, DecidableEq

/-- Python truthiness of an optional environment-variable value:
`os.getenv` returns `None` when unset, and the empty string is falsy. -/
def pyTruthy : Option String → Bool
  | none => false
  | some s => !s.isEmpty

/-- The startup credential gate (agent.py lines 305-309, on the path
without the `--enroll` flag): `if not os.getenv("USER_ID") and not
os.path.exists(".env"): sys.exit(1)`, otherwise fall through to
`register_provider()`. -/
def startupGate (userId : Option String) (dotenvExists : Bool) : StartupAction :=
  if !pyTruthy userId && !dotenvExists then StartupAction.exitWithCode 1
  else StartupAction.register

/-- C1 counterexample: on a task whose sandbox exits 0 with an empty
workspace, if the `container.remove()` call of agent.py line 270 raises
after `COMPLETED` was already reported, the `except` block reports a
second terminal status `FAILED` — two terminal reports for one accepted
task, contradicting the claim that there is never more than one. -/
theorem double_terminal_report_on_remove_failure :
    terminalCount (runTask ⟨"task-1", none, none, none⟩
      ⟨LaunchOutcome.ok, StreamOutcome.ok [], WaitOutcome.exited 0, [],
       UploadOutcome.resp 200, RemoveOutcome.exn "remove failed"⟩) = 2 := rfl

/-- C1 amended: every accepted task produces at least one terminal report,
and exactly one, except when execution reaches the `container.remove()`
call on the normal path and that call raises after the terminal status was
already reported — then the `except` handler emits a second, `FAILED`,
report, for a total of two.  Zero terminal reports never occur. -/
theorem terminal_report_count (t : TaskSpec) (env : Env) :
    terminalCount (runTask t env) =
      (if reachesRemove t env && removeRaises env.containerRemove then 2 else 1) := by
  obtain ⟨tid, inp, scr, url⟩ := t
  obtain ⟨l, s, w, wf, u, cr⟩ := env
  cases l with
  | exn m => rfl
  | ok =>
    cases s with
    | exn seen m => rfl
    | ok lines =>
      cases w with
      | timeout m => rfl
      | exn m => rfl
      | exited code =>
        by_cases hc : code = 0
        · subst hc
          cases wf with
          | nil =>
            cases cr <;>
              simp [runTask, removeTail, terminalCount, isTerminalReport,
                    reachesRemove, removeRaises, launchOk, streamOk, waitExited,
                    exitedZero, uploadTaken, uploadRaises, update_task_status,
                    List.filter]
          | cons f fs =>
            cases url with
            | none =>
              cases cr <;>
                simp [runTask, removeTail, terminalCount, isTerminalReport,
                      reachesRemove, removeRaises, launchOk, streamOk, waitExited,
                      exitedZero, uploadTaken, uploadRaises, update_task_status,
                      List.filter]
            | some u2 =>
              cases u with
              | exn m =>
                cases cr <;>
                  simp [runTask, removeTail, terminalCount, isTerminalReport,
                        reachesRemove, removeRaises, launchOk, streamOk, waitExited,
                        exitedZero, uploadTaken, uploadRaises, update_task_status,
                        List.filter]
              | resp sc =>
                cases cr <;>
                  simp [runTask, removeTail, terminalCount, isTerminalReport,
                        reachesRemove, removeRaises, launchOk, streamOk, waitExited,
                        exitedZero, uploadTaken, uploadRaises, update_task_status,
                        List.filter]
        · cases cr <;>
            simp [runTask, removeTail, terminalCount, isTerminalReport,
                  reachesRemove, removeRaises, launchOk, streamOk, waitExited,
                  exitedZero, uploadTaken, uploadRaises, update_task_status,
                  List.filter, hc]

/-- C2: the workspace temporary directory created by `tempfile.mkdtemp`
(agent.py line 214) is removed by the `finally` block (lines 282-284) on
every execution path — success, non-zero exit, launch failure, stream or
wait exception, timeout, upload failure and container-removal failure —
so it is absent from the filesystem when the task concludes. -/
theorem workspace_absent_after_task (t : TaskSpec) (env : Env) :
    resultDirExistsAfter (runTask t env) = false := by
  obtain ⟨tid, inp, scr, url⟩ := t
  obtain ⟨l, s, w, wf, u, cr⟩ := env
  cases l with
  | exn m => rfl
  | ok =>
    cases s with
    | exn seen m => rfl
    | ok lines =>
      cases w with
      | timeout m => rfl
      | exn m => rfl
      | exited code =>
        by_cases hc : code = 0
        · subst hc
          cases wf with
          | nil => cases cr <;> rfl
          | cons f fs =>
            cases url with
            | none => cases cr <;> rfl
            | some u2 =>
              cases u with
              | exn m => rfl
              | resp sc => cases cr <;> rfl
        · cases cr <;>
            simp [runTask, removeTail, resultDirExistsAfter, update_task_status,
                  hc, List.foldl]

/-- C3 counterexample: the guard at agent.py line 250 is
`os.listdir(result_dir) and upload_url`, so a task whose sandbox exits 0
with a non-empty workspace but no `upload_url` produces no archive and no
upload attempt, contradicting the claim that a non-empty workspace alone
yields exactly one archive and one upload attempt. -/
theorem nonempty_workspace_no_url_no_archive :
    archiveCount (runTask ⟨"task-3", none, none, none⟩
      ⟨LaunchOutcome.ok, StreamOutcome.ok [], WaitOutcome.exited 0, ["out.bin"],
       UploadOutcome.resp 200, RemoveOutcome.ok⟩) = 0 ∧
    uploadCount (runTask ⟨"task-3", none, none, none⟩
      ⟨LaunchOutcome.ok, StreamOutcome.ok [], WaitOutcome.exited 0, ["out.bin"],
       UploadOutcome.resp 200, RemoveOutcome.ok⟩) = 0 := ⟨rfl, rfl⟩

/-- C3 amended: for a sandbox exit code of 0, exactly one archive is
produced and exactly one upload attempt is made when the workspace is
non-empty AND a destination reference (`upload_url`) is present; in every
other case (empty workspace, or no destination reference) no archive and
no upload occur.  The terminal status is `COMPLETED`, except that when an
upload was attempted and the transfer raised an exception the terminal
status is `FAILED` instead. -/
theorem success_archive_upload_iff_files_and_url (tid : String)
    (inp scr : Option String) (url : Option String)
    (lines wf : List String) (u : UploadOutcome) (cr : RemoveOutcome) :
    archiveCount (runTask ⟨tid, inp, scr, url⟩
      ⟨LaunchOutcome.ok, StreamOutcome.ok lines, WaitOutcome.exited 0, wf, u, cr⟩) =
      (if !wf.isEmpty && url.isSome then 1 else 0) ∧
    uploadCount (runTask ⟨tid, inp, scr, url⟩
      ⟨LaunchOutcome.ok, StreamOutcome.ok lines, WaitOutcome.exited 0, wf, u, cr⟩) =
      (if !wf.isEmpty && url.isSome then 1 else 0) ∧
    firstTerminalStatus (runTask ⟨tid, inp, scr, url⟩
      ⟨LaunchOutcome.ok, StreamOutcome.ok lines, WaitOutcome.exited 0, wf, u, cr⟩) =
      some (if !wf.isEmpty && url.isSome && uploadRaises u then Status.FAILED
            else Status.COMPLETED) := by
  cases wf <;> cases url <;> cases u <;> cases cr <;> exact ⟨rfl, rfl, rfl⟩

/-- C4 counterexample: when the sandbox exits 0 and the `requests.put`
transfer raises an exception (rather than returning a non-2xx response),
control jumps to the `except` block of agent.py line 272 and the task is
reported `FAILED` — so a failure of the transfer attempt can alter the
terminal status, contradicting the claim for "any failure". -/
theorem upload_exception_marks_failed :
    firstTerminalStatus (runTask ⟨"task-4", none, none, some "https://dest/put4"⟩
      ⟨LaunchOutcome.ok, StreamOutcome.ok ["line one\n"], WaitOutcome.exited 0,
       ["model.bin"], UploadOutcome.exn "connection reset by peer",
       RemoveOutcome.ok⟩) = some Status.FAILED := rfl

/-- C4 amended: when the sandbox exits 0 and the upload transfer completes
with an HTTP response — of any status code, including non-2xx failures —
the terminal status reported is still `COMPLETED`; only a transfer that
raises an exception diverts the task to `FAILED`. -/
theorem upload_response_keeps_completed (tid : String) (inp scr : Option String)
    (u2 : String) (lines wf : List String) (sc : Nat) (cr : RemoveOutcome) :
    firstTerminalStatus (runTask ⟨tid, inp, scr, some u2⟩
      ⟨LaunchOutcome.ok, StreamOutcome.ok lines, WaitOutcome.exited 0, wf,
       UploadOutcome.resp sc, cr⟩) = some Status.COMPLETED := by
  cases wf <;> rfl

/-- C5 counterexample: an archive is produced, but the `requests.put`
transfer raises, so control jumps to the `except` block before
`os.remove(zip_path)` (agent.py line 262) runs: the local archive file is
still present when the task concludes, contradicting the claim that it is
removed after the transfer attempt regardless of outcome. -/
theorem archive_leaks_on_upload_exception :
    archiveCount (runTask ⟨"task-5", none, none, some "https://dest/put5"⟩
      ⟨LaunchOutcome.ok, StreamOutcome.ok [], WaitOutcome.exited 0, ["weights.pt"],
       UploadOutcome.exn "read timed out", RemoveOutcome.ok⟩) = 1 ∧
    archiveExistsAfter (runTask ⟨"task-5", none, none, some "https://dest/put5"⟩
      ⟨LaunchOutcome.ok, StreamOutcome.ok [], WaitOutcome.exited 0, ["weights.pt"],
       UploadOutcome.exn "read timed out", RemoveOutcome.ok⟩) = true := ⟨rfl, rfl⟩

/-- C5 amended: whenever an archive is produced, if the upload transfer
completes with an HTTP response (any status code, success or failure) the
local archive file is removed by `os.remove(zip_path)`; if the transfer
raises an exception, the removal is skipped and the archive file remains
on disk. -/
theorem archive_removed_iff_transfer_returned (tid : String)
    (inp scr : Option String) (u2 : String) (lines wf2 : List String)
    (f : String) (sc : Nat) (m : String) (cr : RemoveOutcome) :
    (archiveExistsAfter (runTask ⟨tid, inp, scr, some u2⟩
        ⟨LaunchOutcome.ok, StreamOutcome.ok lines, WaitOutcome.exited 0, f :: wf2,
         UploadOutcome.resp sc, cr⟩) = false ∧
      Event.removeFile (zipPath tid) ∈ runTask ⟨tid, inp, scr, some u2⟩
        ⟨LaunchOutcome.ok, StreamOutcome.ok lines, WaitOutcome.exited 0, f :: wf2,
         UploadOutcome.resp sc, cr⟩) ∧
    archiveExistsAfter (runTask ⟨tid, inp, scr, some u2⟩
        ⟨LaunchOutcome.ok, StreamOutcome.ok lines, WaitOutcome.exited 0, f :: wf2,
         UploadOutcome.exn m, cr⟩) = true := by
  refine ⟨⟨?_, ?_⟩, ?_⟩
  · cases cr <;> rfl
  · cases cr <;> simp [runTask, removeTail, update_task_status]
  · rfl

/-- C6: the wait on sandbox completion is `container.wait(timeout=300)`
(agent.py line 244) — a fixed bound of 300 time units — and when it times
out, the raised exception takes the `except` path: the task is reported
`FAILED` and a forced stop is attempted on the container handle
(agent.py lines 277-279). -/
theorem wait_timeout_bound_and_forced_stop (t : TaskSpec) (lines : List String)
    (msg : String) (wf : List String) (u : UploadOutcome) (cr : RemoveOutcome) :
    Event.waitCall WAIT_TIMEOUT ∈ runTask t
      ⟨LaunchOutcome.ok, StreamOutcome.ok lines, WaitOutcome.timeout msg, wf, u, cr⟩ ∧
    WAIT_TIMEOUT = 300 ∧
    firstTerminalStatus (runTask t
      ⟨LaunchOutcome.ok, StreamOutcome.ok lines, WaitOutcome.timeout msg, wf, u, cr⟩) =
      some Status.FAILED ∧
    Event.stopAttempt ∈ runTask t
      ⟨LaunchOutcome.ok, StreamOutcome.ok lines, WaitOutcome.timeout msg, wf, u, cr⟩ := by
  refine ⟨?_, rfl, rfl, ?_⟩ <;> simp [runTask, update_task_status]

/-- C7 counterexample: a sandbox exit code of 0 does not always yield the
success terminal status — when the result upload raises an exception
after a successful exit, the task is reported `FAILED`, so the outcome
classification is not exit-code-based only. -/
theorem exit_zero_upload_exception_failed :
    firstTerminalStatus (runTask ⟨"task-7", none, none, some "https://dest/put7"⟩
      ⟨LaunchOutcome.ok, StreamOutcome.ok ["ok\n"], WaitOutcome.exited 0,
       ["res.txt"], UploadOutcome.exn "broken pipe", RemoveOutcome.ok⟩) =
      some Status.FAILED := rfl

/-- C7 amended: the first terminal status of every accepted task is
always exactly one of `COMPLETED` or `FAILED` (no other classification
exists), and it is `COMPLETED` precisely when the launch, the log stream
and the wait all completed, the exit code was 0, and no attempted result
upload raised an exception; any non-zero exit code, any exception during
launch, streaming, wait or upload, and any timeout yield `FAILED`. -/
theorem terminal_classification (t : TaskSpec) (env : Env) :
    firstTerminalStatus (runTask t env) =
      some (if launchOk env && streamOk env && exitedZero env &&
              !(uploadTaken t env && uploadRaises env.upload)
            then Status.COMPLETED else Status.FAILED) := by
  obtain ⟨tid, inp, scr, url⟩ := t
  obtain ⟨l, s, w, wf, u, cr⟩ := env
  cases l with
  | exn m => rfl
  | ok =>
    cases s with
    | exn seen m => rfl
    | ok lines =>
      cases w with
      | timeout m => rfl
      | exn m => rfl
      | exited code =>
        by_cases hc : code = 0
        · subst hc
          cases wf <;> cases url <;> cases u <;> cases cr <;> rfl
        · cases cr <;>
            simp [runTask, removeTail, firstTerminalStatus, firstTerminalReport,
                  isTerminalReport, launchOk, streamOk, exitedZero, uploadTaken,
                  uploadRaises, update_task_status, hc, List.find?]

/-- C8 counterexample: on a fully successful task (exit 0, archive
produced, upload returned 200) the terminal report sent by
`update_task_status(task_id, "COMPLETED", full_logs)` (agent.py line 264)
leaves the `result_url` parameter at its default `None`: no status update
in the whole trace carries a reference to the uploaded archive,
contradicting the claim that the terminal report includes one. -/
theorem completed_report_result_url_none :
    Event.uploadPut "https://dest/put8" ∈
      runTask ⟨"task-8", none, none, some "https://dest/put8"⟩
        ⟨LaunchOutcome.ok, StreamOutcome.ok ["log line\n"], WaitOutcome.exited 0,
         ["result.json"], UploadOutcome.resp 200, RemoveOutcome.ok⟩ ∧
    firstTerminalReport (runTask ⟨"task-8", none, none, some "https://dest/put8"⟩
        ⟨LaunchOutcome.ok, StreamOutcome.ok ["log line\n"], WaitOutcome.exited 0,
         ["result.json"], UploadOutcome.resp 200, RemoveOutcome.ok⟩) =
      some (Event.statusUpdate "task-8" Status.COMPLETED (some "log line\n") none) ∧
    (runTask ⟨"task-8", none, none, some "https://dest/put8"⟩
        ⟨LaunchOutcome.ok, StreamOutcome.ok ["log line\n"], WaitOutcome.exited 0,
         ["result.json"], UploadOutcome.resp 200, RemoveOutcome.ok⟩).all
      noResultRef = true := by
  refine ⟨?_, rfl, rfl⟩
  simp [runTask, update_task_status, removeTail]

/-- C8 amended: for a task that succeeds with an archive produced and
uploaded, the terminal report carries the accumulated log text, but never
a reference to the uploaded result archive: the `result_url` field of
every status update issued by `poll_for_task` is `None`. -/
theorem terminal_report_no_result_reference (tid : String)
    (inp scr : Option String) (u2 : String) (lines wf2 : List String)
    (f : String) (sc : Nat) (cr : RemoveOutcome) :
    update_task_status tid Status.COMPLETED (some (joinLogs lines)) none ∈
      runTask ⟨tid, inp, scr, some u2⟩
        ⟨LaunchOutcome.ok, StreamOutcome.ok lines, WaitOutcome.exited 0, f :: wf2,
         UploadOutcome.resp sc, cr⟩ ∧
    (runTask ⟨tid, inp, scr, some u2⟩
        ⟨LaunchOutcome.ok, StreamOutcome.ok lines, WaitOutcome.exited 0, f :: wf2,
         UploadOutcome.resp sc, cr⟩).all noResultRef = true := by
  constructor
  · cases cr <;> simp [runTask, update_task_status, removeTail]
  · cases cr <;> rfl

/-- C9: the startup gate of the `__main__` block proceeds to
`register_provider()` precisely when a `USER_ID` is bound in the
environment (Python truthiness: set and non-empty) or the persisted
credentials file `.env` exists; when neither holds, the process exits
with code 1 before any registration is attempted. -/
theorem startup_gate_registration (userId : Option String) (dotenvExists : Bool) :
    startupGate userId dotenvExists =
      (if pyTruthy userId || dotenvExists then StartupAction.register
       else StartupAction.exitWithCode 1) := by
  cases h : pyTruthy userId <;> cases dotenvExists <;> simp [startupGate, h]

/-- C10: for every exception raised during container launch, log
streaming, or the completion wait (including timeout), the `FAILED`
report carries exactly the exception text as its log payload, and the
trace is independent of the log chunks accumulated from the stream before
the exception: the accumulated lines are discarded and never reported. -/
theorem exception_failed_payload_discards_stream (t : TaskSpec) (msg : String)
    (seen lines : List String) (s : StreamOutcome) (w : WaitOutcome)
    (wf : List String) (u : UploadOutcome) (cr : RemoveOutcome) :
    firstTerminalReport (runTask t ⟨LaunchOutcome.exn msg, s, w, wf, u, cr⟩) =
      some (update_task_status t.taskId Status.FAILED (some msg) none) ∧
    (firstTerminalReport
        (runTask t ⟨LaunchOutcome.ok, StreamOutcome.exn seen msg, w, wf, u, cr⟩) =
        some (update_task_status t.taskId Status.FAILED (some msg) none) ∧
      runTask t ⟨LaunchOutcome.ok, StreamOutcome.exn seen msg, w, wf, u, cr⟩ =
        runTask t ⟨LaunchOutcome.ok, StreamOutcome.exn [] msg, w, wf, u, cr⟩) ∧
    (firstTerminalReport (runTask t
        ⟨LaunchOutcome.ok, StreamOutcome.ok lines, WaitOutcome.exn msg, wf, u, cr⟩) =
        some (update_task_status t.taskId Status.FAILED (some msg) none) ∧
      runTask t ⟨LaunchOutcome.ok, StreamOutcome.ok lines, WaitOutcome.exn msg, wf, u, cr⟩ =
        runTask t ⟨LaunchOutcome.ok, StreamOutcome.ok [], WaitOutcome.exn msg, wf, u, cr⟩) ∧
    (firstTerminalReport (runTask t
        ⟨LaunchOutcome.ok, StreamOutcome.ok lines, WaitOutcome.timeout msg, wf, u, cr⟩) =
        some (update_task_status t.taskId Status.FAILED (some msg) none) ∧
      runTask t ⟨LaunchOutcome.ok, StreamOutcome.ok lines, WaitOutcome.timeout msg, wf, u, cr⟩ =
        runTask t ⟨LaunchOutcome.ok, StreamOutcome.ok [], WaitOutcome.timeout msg, wf, u, cr⟩) :=
  ⟨rfl, ⟨rfl, rfl⟩, ⟨rfl, rfl⟩, ⟨rfl, rfl⟩⟩

end MatchaAgent
